import Mathlib

/-!
A shallow embedding of `src/index.js` of the easypay-gateway repository: a
single-process Express server exposing `GET /stripe-public-key` and
`POST /create-payment-intent`, delegating intent creation to the Stripe
SDK (`stripe.paymentIntents.create`).

Modelling choices, all taken from the source:
* `process.env` is a record of `Option String` fields; `none` is an unset
  variable (`undefined` in JS).
* The Stripe client is a stateful oracle: from its own state and the
  params object it either returns a payment intent or throws a JS error.
* A response body is the JS object handed to `res.send`/`res.json`: a
  field list whose values may be `undefined` (`none`). `JSON.stringify`
  (applied by Express before the bytes go on the wire) drops a field
  whose value is `undefined`; `serializeBody` models that.
* The POST handler result records, besides the HTTP response, the list of
  provider calls it made and the errors it wrote with `console.error`.
-/

namespace EasyPay

/-- The environment configuration read at startup (`process.env`). Each
variable is `Option String`; `none` models an unset variable. -/
structure Env where
  STRIPE_SECRET_KEY : Option String
  STRIPE_PUBLISHABLE_KEY : Option String
  PORT : Option String
deriving DecidableEq

/-- A JS value that can end up in the `port` constant: either the string
taken from the environment or the numeric literal 3000. -/
inductive PortValue where
  | str (s : String)
  | num (n : Nat)
deriving DecidableEq

/-- `const port = process.env.PORT || 3000;` — JS `||` yields the right
operand when the left one is falsy, which for an environment variable
means unset (`undefined`) or the empty string. -/
def port (env : Env) : PortValue :=
  match env.PORT with
  | none => PortValue.num 3000
  | some p => if p = "" then PortValue.num 3000 else PortValue.str p

/-- A JS value occurring in the params object literal passed to
`stripe.paymentIntents.create`. -/
inductive ParamValue where
  | num (n : Nat)
  | str (s : String)
  | strList (l : List String)
deriving DecidableEq

/-- The object literal passed to `stripe.paymentIntents.create` in the
POST handler: `{ amount: 1000, currency: 'usd',
payment_method_types: ['card'] }`. -/
def createPaymentIntentParams : List (String × ParamValue) :=
  [("amount", ParamValue.num 1000),
   ("currency", ParamValue.str "usd"),
   ("payment_method_types", ParamValue.strList ["card"])]

/-- A payment intent as the handler reads it: only `client_secret` is
accessed; it may be absent (`undefined`). -/
structure PaymentIntent where
  client_secret : Option String
deriving DecidableEq

/-- A thrown JS value as the catch branch reads it: only `message` is
accessed, and a thrown non-Error value may lack it (`undefined`). -/
structure JsError where
  message : Option String
deriving DecidableEq

/-- The external provider client (`stripe.paymentIntents.create`),
modelled as a stateful oracle: from its own state and the params it
either returns a payment intent or throws a `JsError`, producing a
successor state. -/
structure Provider (σ : Type) where
  create : σ → List (String × ParamValue) → Except JsError PaymentIntent × σ

/-- The parsed JSON request body (`express.json()` middleware), as a
field list. The POST handler receives it and never reads it. -/
abbrev ReqBody := List (String × String)

/-- An HTTP response: status code and the JS object passed to
`res.send`/`res.json`, whose field values may be `undefined` (`none`). -/
structure HttpResponse where
  status : Nat
  body : List (String × Option String)
deriving DecidableEq

/-- JSON serialization of a response object (`JSON.stringify`, applied by
Express): a field whose value is `undefined` is dropped from the output. -/
def serializeBody (b : List (String × Option String)) : List (String × String) :=
  b.filterMap (fun f => f.2.map (fun v => (f.1, v)))

/-- Everything observable from one run of the POST handler: the HTTP
response, the provider state afterwards, the params of each provider call
made, and the errors written to `console.error`. -/
structure HandlerResult (σ : Type) where
  response : HttpResponse
  providerState : σ
  providerCalls : List (List (String × ParamValue))
  errorLog : List JsError

/-- The `POST /create-payment-intent` handler (`src/index.js` lines
20-34): one `stripe.paymentIntents.create` call with the fixed params; on
success `res.send({ clientSecret: paymentIntent.client_secret })`
(status 200 by default); on a thrown error `console.error(error)` then
`res.status(500).send({ error: error.message })`. The request body is
never read. -/
def createPaymentIntent {σ : Type} (P : Provider σ) (s : σ) (_reqBody : ReqBody) :
    HandlerResult σ :=
  match P.create s createPaymentIntentParams with
  | (Except.ok paymentIntent, s2) =>
      { response := { status := 200,
                      body := [("clientSecret", paymentIntent.client_secret)] },
        providerState := s2,
        providerCalls := [createPaymentIntentParams],
        errorLog := [] }
  | (Except.error e, s2) =>
      { response := { status := 500, body := [("error", e.message)] },
        providerState := s2,
        providerCalls := [createPaymentIntentParams],
        errorLog := [e] }

/-- The `GET /stripe-public-key` handler (`src/index.js` lines 15-17):
`res.json({ publicKey: process.env.STRIPE_PUBLISHABLE_KEY })`. -/
def stripePublicKey (env : Env) : HttpResponse :=
  { status := 200, body := [("publicKey", env.STRIPE_PUBLISHABLE_KEY)] }

/-- An inbound request to one of the two routes. -/
inductive Request where
  | getStripePublicKey
  | postCreatePaymentIntent (reqBody : ReqBody)

/-- The server process state: the configuration and the provider client,
both initialized once at startup, plus the external provider's own
state (which lives outside the server). -/
structure ServerState (σ : Type) where
  env : Env
  provider : Provider σ
  providerState : σ

/-- Dispatch of one request to its handler, returning the response, the
server state afterwards and the errors written to the error stream. -/
def handleRequest {σ : Type} (st : ServerState σ) :
    Request → HttpResponse × ServerState σ × List JsError
  | Request.getStripePublicKey => (stripePublicKey st.env, st, [])
  | Request.postCreatePaymentIntent b =>
      let r := createPaymentIntent st.provider st.providerState b
      (r.response, { st with providerState := r.providerState }, r.errorLog)

/-- Processing of a sequence of requests, threading the server state. -/
def run {σ : Type} (st : ServerState σ) : List Request → List HttpResponse × ServerState σ
  | [] => ([], st)
  | req :: reqs =>
      let x := handleRequest st req
      let y := run x.2.1 reqs
      (x.1 :: y.1, y.2)

/-- Two successive POSTs to `/create-payment-intent`, threading the
provider's state from the first call into the second. -/
def twoRequests {σ : Type} (P : Provider σ) (s : σ) (b1 b2 : ReqBody) :
    HandlerResult σ × HandlerResult σ :=
  let r1 := createPaymentIntent P s b1
  (r1, createPaymentIntent P r1.providerState b2)

/-- A stub provider that returns a fixed client secret. -/
def stubOk : Provider Unit :=
  { create := fun s _ => (Except.ok { client_secret := some "sk_abc_secret" }, s) }

/-- A stub provider that throws `Error("card declined")`. -/
def stubDeclined : Provider Unit :=
  { create := fun s _ => (Except.error { message := some "card declined" }, s) }

/-- A stub provider that throws a value with no `message` property. -/
def stubNoMessage : Provider Unit :=
  { create := fun s _ => (Except.error { message := none }, s) }

/-- A stub provider that issues a distinct client secret on every call. -/
def stubCounter : Provider Nat :=
  { create := fun n _ =>
      (Except.ok { client_secret := some ("sk_secret_" ++ toString n) }, n + 1) }

/-- Claim C1: on a successful provider call returning an intent with
client secret `S`, the POST response has status 200 and its serialized
body is exactly the one field `clientSecret` with value `S`. -/
theorem c1_success_response {σ : Type} (P : Provider σ) (s s2 : σ)
    (i : PaymentIntent) (S : String) (b : ReqBody)
    (hcall : P.create s createPaymentIntentParams = (Except.ok i, s2))
    (hsec : i.client_secret = some S) :
    (createPaymentIntent P s b).response.status = 200 ∧
    serializeBody (createPaymentIntent P s b).response.body = [("clientSecret", S)] := by
  unfold createPaymentIntent
  rw [hcall]
  simp [serializeBody, hsec]

/-- Claim C1 witness: the end-to-end success scenario with the stub
provider returning `"sk_abc_secret"` on an empty request body. -/
theorem c1_success_response_witness :
    (createPaymentIntent stubOk () []).response.status = 200 ∧
    serializeBody (createPaymentIntent stubOk () []).response.body =
      [("clientSecret", "sk_abc_secret")] :=
  c1_success_response stubOk () () { client_secret := some "sk_abc_secret" }
    "sk_abc_secret" [] rfl rfl

/-- Claim C2: on a provider call that throws an error with message `M`,
the POST response has status 500, its serialized body is exactly
`{ "error": M }`, and the error is written to the error stream. -/
theorem c2_failure_response {σ : Type} (P : Provider σ) (s s2 : σ)
    (e : JsError) (M : String) (b : ReqBody)
    (hcall : P.create s createPaymentIntentParams = (Except.error e, s2))
    (hmsg : e.message = some M) :
    (createPaymentIntent P s b).response.status = 500 ∧
    serializeBody (createPaymentIntent P s b).response.body = [("error", M)] ∧
    (createPaymentIntent P s b).errorLog = [e] := by
  unfold createPaymentIntent
  rw [hcall]
  simp [serializeBody, hmsg]

/-- Claim C2 witness: the end-to-end failure scenario with the stub
provider throwing `Error("card declined")`. -/
theorem c2_failure_response_witness :
    (createPaymentIntent stubDeclined () []).response.status = 500 ∧
    serializeBody (createPaymentIntent stubDeclined () []).response.body =
      [("error", "card declined")] ∧
    (createPaymentIntent stubDeclined () []).errorLog = [{ message := some "card declined" }] :=
  c2_failure_response stubDeclined () () { message := some "card declined" }
    "card declined" [] rfl rfl

/-- Claim C3: for every request body, the params passed to the provider
are the fixed constants: amount 1000, currency `"usd"`,
payment-method list `["card"]`. -/
theorem c3_fixed_params {σ : Type} (P : Provider σ) (s : σ) (b : ReqBody) :
    (createPaymentIntent P s b).providerCalls =
      [[("amount", ParamValue.num 1000),
        ("currency", ParamValue.str "usd"),
        ("payment_method_types", ParamValue.strList ["card"])]] := by
  unfold createPaymentIntent
  rcases h : P.create s createPaymentIntentParams with ⟨out, s2⟩
  cases out <;> rfl

/-- Claim C4: the `GET /stripe-public-key` handler always answers status
200 with the one field `publicKey` carrying the configured value as-is
(also when unset), leaves the server state unchanged, and writes
nothing to the error stream. -/
theorem c4_public_key {σ : Type} (st : ServerState σ) :
    handleRequest st Request.getStripePublicKey =
      ({ status := 200, body := [("publicKey", st.env.STRIPE_PUBLISHABLE_KEY)] },
       st, []) := rfl

/-- Claim C5: two successive POSTs each issue their own provider call
with the same fixed params, which carry no idempotency key; with a
provider returning distinct secrets on the two calls the two serialized
response bodies are distinct. -/
theorem c5_not_idempotent {σ : Type} (P : Provider σ) (s s2 s3 : σ)
    (i1 i2 : PaymentIntent) (c1 c2 : String) (b1 b2 : ReqBody)
    (h1 : P.create s createPaymentIntentParams = (Except.ok i1, s2))
    (h2 : P.create s2 createPaymentIntentParams = (Except.ok i2, s3))
    (hs1 : i1.client_secret = some c1) (hs2 : i2.client_secret = some c2)
    (hne : c1 ≠ c2) :
    ((twoRequests P s b1 b2).1.providerCalls ++ (twoRequests P s b1 b2).2.providerCalls =
       [createPaymentIntentParams, createPaymentIntentParams]) ∧
    createPaymentIntentParams.map Prod.fst =
      ["amount", "currency", "payment_method_types"] ∧
    serializeBody (twoRequests P s b1 b2).1.response.body = [("clientSecret", c1)] ∧
    serializeBody (twoRequests P s b1 b2).2.response.body = [("clientSecret", c2)] ∧
    serializeBody (twoRequests P s b1 b2).1.response.body ≠
      serializeBody (twoRequests P s b1 b2).2.response.body := by
  have hr1 : createPaymentIntent P s b1 =
      { response := { status := 200, body := [("clientSecret", i1.client_secret)] },
        providerState := s2,
        providerCalls := [createPaymentIntentParams],
        errorLog := [] } := by
    unfold createPaymentIntent; rw [h1]
  have hr2 : createPaymentIntent P s2 b2 =
      { response := { status := 200, body := [("clientSecret", i2.client_secret)] },
        providerState := s3,
        providerCalls := [createPaymentIntentParams],
        errorLog := [] } := by
    unfold createPaymentIntent; rw [h2]
  refine ⟨?_, rfl, ?_, ?_, ?_⟩ <;>
    simp [twoRequests, hr1, hr2, serializeBody, hs1, hs2, hne]

/-- Claim C5 witness: the counter stub provider, started at state 0,
yields `"sk_secret_0"` then `"sk_secret_1"`: distinct bodies. -/
theorem c5_not_idempotent_witness :
    ((twoRequests stubCounter 0 [] []).1.providerCalls ++
       (twoRequests stubCounter 0 [] []).2.providerCalls =
       [createPaymentIntentParams, createPaymentIntentParams]) ∧
    createPaymentIntentParams.map Prod.fst =
      ["amount", "currency", "payment_method_types"] ∧
    serializeBody (twoRequests stubCounter 0 [] []).1.response.body =
      [("clientSecret", "sk_secret_0")] ∧
    serializeBody (twoRequests stubCounter 0 [] []).2.response.body =
      [("clientSecret", "sk_secret_1")] ∧
    serializeBody (twoRequests stubCounter 0 [] []).1.response.body ≠
      serializeBody (twoRequests stubCounter 0 [] []).2.response.body :=
  c5_not_idempotent stubCounter 0 1 2
    { client_secret := some "sk_secret_0" } { client_secret := some "sk_secret_1" }
    "sk_secret_0" "sk_secret_1" [] [] rfl rfl rfl rfl (by decide)

/-- Claim C6: every run of the POST handler makes exactly one provider
call, whatever the provider's outcome: no retry, no extra call. -/
theorem c6_exactly_one_call {σ : Type} (P : Provider σ) (s : σ) (b : ReqBody) :
    (createPaymentIntent P s b).providerCalls.length = 1 := by
  unfold createPaymentIntent
  rcases h : P.create s createPaymentIntentParams with ⟨out, s2⟩
  cases out <;> rfl

/-- Claim C7: the configuration and the provider client are fixed at
startup: processing any sequence of requests leaves both unchanged, so
every request observes the same configuration. -/
theorem c7_config_immutable {σ : Type} (st : ServerState σ) (reqs : List Request) :
    (run st reqs).2.env = st.env ∧ (run st reqs).2.provider = st.provider := by
  induction reqs generalizing st with
  | nil => exact ⟨rfl, rfl⟩
  | cons r rs ih =>
      cases r with
      | getStripePublicKey =>
          simpa [run, handleRequest] using ih st
      | postCreatePaymentIntent b =>
          simpa [run, handleRequest] using
            ih { st with providerState :=
                   (createPaymentIntent st.provider st.providerState b).providerState }

/-- An environment whose `PORT` variable is set to the empty string. -/
def envEmptyPort : Env :=
  { STRIPE_SECRET_KEY := none, STRIPE_PUBLISHABLE_KEY := none, PORT := some "" }

/-- Claim C8 counterexample: with `PORT` set to the empty string a port
value is provided in the environment, yet `process.env.PORT || 3000`
evaluates to 3000, not to the configured value. -/
theorem c8_counterexample :
    envEmptyPort.PORT = some "" ∧
    port envEmptyPort = PortValue.num 3000 ∧
    port envEmptyPort ≠ PortValue.str "" := by
  refine ⟨rfl, rfl, ?_⟩
  decide

/-- Claim C8 (amended): the server listens on the configured port
whenever a non-empty value is provided, and on 3000 when `PORT` is unset
or set to the empty string (both falsy in JS). -/
theorem c8_port_default (env : Env) (p : String) :
    (env.PORT = some p → p ≠ "" → port env = PortValue.str p) ∧
    (env.PORT = none → port env = PortValue.num 3000) ∧
    (env.PORT = some "" → port env = PortValue.num 3000) := by
  refine ⟨fun h hp => ?_, fun h => ?_, fun h => ?_⟩ <;>
    simp [port, h]
  exact hp

/-- Claim C8 witness: a provided port `"8080"` is used; an absent port
falls back to 3000. -/
theorem c8_port_default_witness :
    port { STRIPE_SECRET_KEY := none, STRIPE_PUBLISHABLE_KEY := none,
           PORT := some "8080" } = PortValue.str "8080" ∧
    port { STRIPE_SECRET_KEY := none, STRIPE_PUBLISHABLE_KEY := none,
           PORT := none } = PortValue.num 3000 :=
  ⟨(c8_port_default _ "8080").1 rfl (by decide),
   (c8_port_default { STRIPE_SECRET_KEY := none, STRIPE_PUBLISHABLE_KEY := none,
                      PORT := none } "x").2.1 rfl⟩

/-- Claim C9: when the provider throws a value with no `message`
property, the POST response still has status 500 but its serialized body
has no `error` field: it is the empty JSON object. -/
theorem c9_no_message {σ : Type} (P : Provider σ) (s s2 : σ)
    (e : JsError) (b : ReqBody)
    (hcall : P.create s createPaymentIntentParams = (Except.error e, s2))
    (hmsg : e.message = none) :
    (createPaymentIntent P s b).response.status = 500 ∧
    serializeBody (createPaymentIntent P s b).response.body = [] := by
  unfold createPaymentIntent
  rw [hcall]
  simp [serializeBody, hmsg]

/-- Claim C9 witness: the stub provider throwing a message-less value. -/
theorem c9_no_message_witness :
    (createPaymentIntent stubNoMessage () []).response.status = 500 ∧
    serializeBody (createPaymentIntent stubNoMessage () []).response.body = [] :=
  c9_no_message stubNoMessage () () { message := none } [] rfl rfl

/-- Claim C10: every response of the POST handler, for every provider
outcome, has status 200 or status 500. -/
theorem c10_status_200_or_500 {σ : Type} (P : Provider σ) (s : σ) (b : ReqBody) :
    (createPaymentIntent P s b).response.status = 200 ∨
    (createPaymentIntent P s b).response.status = 500 := by
  unfold createPaymentIntent
  rcases h : P.create s createPaymentIntentParams with ⟨out, s2⟩
  cases out with
  | ok i => exact Or.inl rfl
  | error e => exact Or.inr rfl

end EasyPay
